import Mathlib

/-!
Shallow embedding of the authentication, session and comment-authorization
core of the `doc_browser` repository, together with proofs about the claims
of its specification.

The definitions below are translated from:
  - src/document_browser/database/models.py   (table schemas)
  - src/document_browser/database/crud.py     (store operations)
  - src/document_browser/auth/oauth.py        (OAuth client and orchestration)
  - src/document_browser/components/comments.py (UI-level authorization gates)
  - src/document_browser/app.py               (callback dispatch in main)

Conventions: timestamps (`datetime.utcnow()`) are modelled as `Nat` values
passed in explicitly; randomness (`secrets.token_urlsafe`) is a parameter;
network exchanges are oracles passed as functions; SQL tables are lists of
rows plus an autoincrement counter, with the schema-level UNIQUE / NOT NULL
constraints of models.py enforced at insert time.
-/

namespace DocBrowser

/-- Row of the `users` table (models.py, class User).  `email` carries a
UNIQUE constraint, enforced in `get_or_create_user` below at insert time. -/
structure User where
  id : Nat
  email : String
  name : String
  avatar_url : Option String
  oauth_provider : String
  oauth_id : String
  is_active : Bool
  created_at : Nat
  last_login : Option Nat
deriving Repr, DecidableEq

/-- The `users` table: rows plus the autoincrement counter for the surrogate
primary key. -/
structure UsersTable where
  rows : List User
  nextId : Nat
deriving Repr, DecidableEq

/-- Row of the `sessions` table (models.py, class Session). -/
structure SessionRow where
  id : Nat
  session_token : String
  user_id : Nat
  expires_at : Nat
  created_at : Nat
  is_active : Bool
deriving Repr, DecidableEq

/-- The `sessions` table. -/
structure SessionsTable where
  rows : List SessionRow
  nextId : Nat
deriving Repr, DecidableEq

/-- Row of the `comments` table (models.py, class Comment). -/
structure Comment where
  id : Nat
  user_id : Nat
  document_id : Nat
  content : String
  element_id : Option String
  created_at : Nat
  updated_at : Option Nat
  is_resolved : Bool
deriving Repr, DecidableEq

/-- Errors surfaced by the storage layer: violations of the schema-level
constraints declared in models.py. -/
inductive DBError where
  | uniqueViolation
deriving Repr, DecidableEq

/-- crud.py `get_or_create_user` (lines 11-37): look up a user by
`(email, oauth_provider)`; if absent, insert a fresh row (subject to the
UNIQUE constraint on `email` from models.py line 17); if present, update
`name`, `avatar_url` and `last_login` in place. -/
def get_or_create_user (t : UsersTable) (email name oauth_provider oauth_id : String)
    (avatar_url : Option String) (now : Nat) : Except DBError (UsersTable × User) :=
  match t.rows.find? (fun u => u.email == email && u.oauth_provider == oauth_provider) with
  | none =>
      if t.rows.any (fun u => u.email == email) then
        Except.error DBError.uniqueViolation
      else
        let user : User :=
          { id := t.nextId, email := email, name := name, avatar_url := avatar_url,
            oauth_provider := oauth_provider, oauth_id := oauth_id,
            is_active := true, created_at := now, last_login := none }
        Except.ok ({ rows := t.rows ++ [user], nextId := t.nextId + 1 }, user)
  | some u =>
      let u' : User := { u with name := name, avatar_url := avatar_url, last_login := some now }
      Except.ok ({ t with rows := t.rows.map (fun v => if v.id == u.id then u' else v) }, u')

/-- crud.py `create_session` (lines 50-63): mint a session row with the given
token (the `secrets.token_urlsafe(32)` value is passed in as `token`) and
`expires_at = now + expires_hours`; `is_active` defaults to true. -/
def create_session (t : SessionsTable) (user_id : Nat) (token : String)
    (now : Nat) (expires_hours : Nat) : SessionsTable × String :=
  let expires_at := now + expires_hours * 3600
  let row : SessionRow :=
    { id := t.nextId, session_token := token, user_id := user_id,
      expires_at := expires_at, created_at := now, is_active := true }
  ({ rows := t.rows ++ [row], nextId := t.nextId + 1 }, token)

/-- crud.py `get_user_by_session` (lines 66-78): find a session row with the
given token that is active and unexpired, then return its owning user via the
`user_id` foreign key; otherwise return nothing. -/
def get_user_by_session (users : List User) (sessions : List SessionRow)
    (session_token : String) (now : Nat) : Option User :=
  match sessions.find? (fun s =>
      s.session_token == session_token && s.is_active && decide (now < s.expires_at)) with
  | some s => users.find? (fun u => u.id == s.user_id)
  | none => none

/-- crud.py `invalidate_session` (lines 81-91): mark the session with the
given token inactive, reporting whether such a session existed. -/
def invalidate_session (t : SessionsTable) (session_token : String) : Bool × SessionsTable :=
  match t.rows.find? (fun s => s.session_token == session_token) with
  | some s =>
      (true, { t with rows := t.rows.map (fun v =>
        if v.id == s.id then { v with is_active := false } else v) })
  | none => (false, t)

/-- crud.py `update_comment` (lines 154-162): look up a comment by id only —
there is no `user_id` parameter and no ownership check — update its content,
set `updated_at` to the current time, and return the updated row; return
nothing when no comment has that id. -/
def update_comment (comments : List Comment) (comment_id : Nat) (content : String)
    (now : Nat) : Option Comment × List Comment :=
  match comments.find? (fun c => c.id == comment_id) with
  | some c =>
      let c' : Comment := { c with content := content, updated_at := some now }
      (some c', comments.map (fun v => if v.id == c.id then c' else v))
  | none => (none, comments)

/-- crud.py `delete_comment` (lines 165-175): find the comment whose id AND
owner both match; delete it if found, else report failure.  An id that exists
but belongs to another user and an id that does not exist at all take the
same `None` branch. -/
def delete_comment (comments : List Comment) (comment_id user_id : Nat) :
    Bool × List Comment :=
  match comments.find? (fun c => c.id == comment_id && c.user_id == user_id) with
  | some c => (true, comments.filter (fun v => !(v.id == c.id)))
  | none => (false, comments)

/-- crud.py `resolve_comment` (lines 178-185): look up a comment by id only —
no ownership parameter — and set `is_resolved` to true. -/
def resolve_comment (comments : List Comment) (comment_id : Nat) :
    Bool × List Comment :=
  match comments.find? (fun c => c.id == comment_id) with
  | some c =>
      (true, comments.map (fun v =>
        if v.id == c.id then { v with is_resolved := true } else v))
  | none => (false, comments)

/-- The user dictionary returned by oauth.py `get_current_user`. -/
structure CurrentUser where
  id : Nat
  email : String
  name : String
  avatar_url : Option String
deriving Repr, DecidableEq

/-- comments.py `render_comment_section` (lines 15-20): when
`get_current_user()` yields no user the section returns early with a login
prompt, before any store access; comments are shown (and mutations offered)
only to an authenticated user. -/
def render_comment_section_shows_comments (user : Option CurrentUser) : Bool :=
  user.isSome

/-- comments.py `render_comment` (lines 129-131): the edit, delete and
resolve buttons are all rendered inside the branch guarded by
`current_user["id"] == comment.user_id`. -/
def comment_actions_visible (current_user_id : Nat) (c : Comment) : Bool :=
  current_user_id == c.user_id

/-- comments.py `render_comment` (lines 129-155): the resolve button is shown
only inside the owner-gated actions block, and only while the comment is not
already resolved. -/
def resolve_button_shown (current_user_id : Nat) (c : Comment) : Bool :=
  current_user_id == c.user_id && !c.is_resolved

/-- oauth.py `OAuthConfig` (lines 21-49): provider credentials read from the
environment; an unset variable is `none` (and Python also treats an empty
string as unconfigured, see `truthy`). -/
structure OAuthConfig where
  google_client_id : Option String
  google_client_secret : Option String
  microsoft_client_id : Option String
  microsoft_client_secret : Option String
  microsoft_tenant_id : String
  github_client_id : Option String
  github_client_secret : Option String
  redirect_uri : String
deriving Repr, DecidableEq

/-- Python truthiness of an optional string: `bool(x)` is false for `None`
and for the empty string. -/
def truthy : Option String → Bool
  | none => false
  | some s => !(s == "")

/-- oauth.py `OAuthConfig.is_configured` (lines 41-49): a provider is
configured iff both its client id and its client secret are truthy. -/
def is_configured (cfg : OAuthConfig) (provider : String) : Bool :=
  if provider == "google" then
    truthy cfg.google_client_id && truthy cfg.google_client_secret
  else if provider == "microsoft" then
    truthy cfg.microsoft_client_id && truthy cfg.microsoft_client_secret
  else if provider == "github" then
    truthy cfg.github_client_id && truthy cfg.github_client_secret
  else false

/-- UTF-8 byte sequence of a character, as the byte values `urlencode`
percent-encodes. -/
def utf8Bytes (c : Char) : List Nat :=
  let n := c.toNat
  if n < 128 then [n]
  else if n < 2048 then [192 + n / 64, 128 + n % 64]
  else if n < 65536 then [224 + n / 4096, 128 + n / 64 % 64, 128 + n % 64]
  else [240 + n / 262144, 128 + n / 4096 % 64, 128 + n / 64 % 64, 128 + n % 64]

/-- Upper-case hexadecimal digit for a value below 16. -/
def hexDigit (n : Nat) : Char :=
  if n < 10 then Char.ofNat (48 + n) else Char.ofNat (55 + n)

/-- Bytes `urllib.parse.quote_plus` leaves unescaped: ASCII alphanumerics and
`_` `.` `-` `~`. -/
def isUrlSafeByte (b : Nat) : Bool :=
  (48 ≤ b && b ≤ 57) || (65 ≤ b && b ≤ 90) || (97 ≤ b && b ≤ 122) ||
    b == 95 || b == 46 || b == 45 || b == 126

/-- One byte under `quote_plus`: kept, turned into `+` for space, or
percent-encoded. -/
def quotePlusByte (b : Nat) : List Char :=
  if isUrlSafeByte b then [Char.ofNat b]
  else if b == 32 then ['+']
  else ['%', hexDigit (b / 16), hexDigit (b % 16)]

/-- `urllib.parse.quote_plus` over a whole string. -/
def quotePlus (s : String) : String :=
  ⟨(s.data.flatMap utf8Bytes).flatMap quotePlusByte⟩

/-- `urllib.parse.urlencode` over an ordered parameter list (the Python dicts
in oauth.py preserve insertion order): `key=quote_plus(value)` pairs joined
by `&`.  The parameter keys in oauth.py are all URL-safe already. -/
def urlencode : List (String × String) → String
  | [] => ""
  | [p] => p.1 ++ "=" ++ quotePlus p.2
  | p :: rest => p.1 ++ "=" ++ quotePlus p.2 ++ "&" ++ urlencode rest

/-- oauth.py `get_oauth_login_url` (lines 55-103): `none` when the provider
is unconfigured; otherwise the provider's authorization endpoint followed by
the urlencoded parameter dict.  The `state` argument stands for the value of
`secrets.token_urlsafe(32)` generated inside the function (randomness is an
explicit parameter in this embedding).  Note the github parameter dict has no
`response_type` entry. -/
def get_oauth_login_url (cfg : OAuthConfig) (provider : String) (state : String) :
    Option String :=
  if !(is_configured cfg provider) then none
  else if provider == "google" then
    some ("https://accounts.google.com/o/oauth2/v2/auth?" ++ urlencode
      [("client_id", cfg.google_client_id.getD ""),
       ("redirect_uri", cfg.redirect_uri),
       ("scope", "openid email profile"),
       ("response_type", "code"),
       ("state", state),
       ("access_type", "offline"),
       ("prompt", "select_account"),
       ("include_granted_scopes", "true")])
  else if provider == "microsoft" then
    some ("https://login.microsoftonline.com/" ++ cfg.microsoft_tenant_id
      ++ "/oauth2/v2.0/authorize?" ++ urlencode
      [("client_id", cfg.microsoft_client_id.getD ""),
       ("redirect_uri", cfg.redirect_uri),
       ("scope", "openid email profile"),
       ("response_type", "code"),
       ("state", state),
       ("prompt", "select_account")])
  else if provider == "github" then
    some ("https://github.com/login/oauth/authorize?" ++ urlencode
      [("client_id", cfg.github_client_id.getD ""),
       ("redirect_uri", cfg.redirect_uri),
       ("scope", "user:email"),
       ("state", state)])
  else none

/-- The normalized profile dict each provider callback returns
(oauth.py lines 157-163, 190-196, 235-241). -/
structure Profile where
  email : String
  name : String
  avatar_url : Option String
  oauth_provider : String
  oauth_id : String
deriving Repr, DecidableEq

/-- Outcome of one provider's code exchange: a normalized profile, or a
raised exception (network error, non-2xx response, missing field). -/
inductive ExchangeResult where
  | ok : Profile → ExchangeResult
  | raised : String → ExchangeResult
deriving Repr, DecidableEq

/-- oauth.py `handle_oauth_callback` (lines 106-130).  The function reads the
stored state from the session, but the comparison with the presented `state`
is commented out in the source ("For now, skip state validation to get OAuth
working / TODO: Fix state persistence in production"), so both values are
ignored and the provider exchange always runs; a raised exception yields
`none`, as does an unknown provider. -/
def handle_oauth_callback (stored_state : Option String) (provider code state : String)
    (google_cb microsoft_cb github_cb : String → ExchangeResult) : Option Profile :=
  let _stored := stored_state
  let _presented := state
  let run : (String → ExchangeResult) → Option Profile := fun cb =>
    match cb code with
    | ExchangeResult.ok p => some p
    | ExchangeResult.raised _ => none
  if provider == "google" then run google_cb
  else if provider == "microsoft" then run microsoft_cb
  else if provider == "github" then run github_cb
  else none

/-- The fields of the GitHub `/user` response that oauth.py reads. -/
structure GithubUser where
  email : Option String
  name : Option String
  login : String
  avatar_url : Option String
  id : Nat
deriving Repr, DecidableEq

/-- One entry of the GitHub `/user/emails` response. -/
structure GithubEmailEntry where
  email : String
  primary : Bool
deriving Repr, DecidableEq

/-- The github variant of the normalized profile: its email can be absent,
because oauth.py builds the dict from `user_info.get("email")` / the primary
entry of the email list, either of which can be missing. -/
structure GithubProfile where
  email : Option String
  name : String
  avatar_url : Option String
  oauth_provider : String
  oauth_id : String
deriving Repr, DecidableEq

/-- oauth.py `_handle_github_callback` (lines 199-241), its pure tail: given
the parsed `/user` profile and (when consulted) the parsed `/user/emails`
list, compute the returned dict.  When the profile email is falsy, the first
entry marked primary is selected; when no entry is marked primary, the email
stays as it was (absent) and the dict is still returned. -/
def handle_github_callback (user_info : GithubUser) (emails : List GithubEmailEntry) :
    GithubProfile :=
  let email0 := user_info.email
  let email :=
    if truthy email0 then email0
    else
      match emails.find? (fun e => e.primary) with
      | some e => some e.email
      | none => email0
  { email := email,
    name :=
      match user_info.name with
      | some n => if n == "" then user_info.login else n
      | none => user_info.login,
    avatar_url := user_info.avatar_url,
    oauth_provider := "github",
    oauth_id := toString user_info.id }

/-- oauth.py `login_user` (lines 244-273): upsert the user from the profile,
then mint a 24-hour session with a fresh token (passed in as `token`). -/
def login_user (users : UsersTable) (sessions : SessionsTable) (user_info : Profile)
    (token : String) (now : Nat) :
    Except DBError (UsersTable × SessionsTable × String) :=
  match get_or_create_user users user_info.email user_info.name
      user_info.oauth_provider user_info.oauth_id user_info.avatar_url now with
  | Except.error e => Except.error e
  | Except.ok (users', user) =>
      let p := create_session sessions user.id token now 24
      Except.ok (users', p.1, p.2)

/-- Observable outcome of the OAuth-callback branch of app.py `main`. -/
inductive CallbackOutcome where
  | notCallback
  | loginSuccess (users : UsersTable) (sessions : SessionsTable) (session_token : String)
  | oauthFailed
  | errorShown
deriving Repr, DecidableEq

/-- app.py `main` (lines 29-57): when the query carries both `code` and
`state`, run `handle_oauth_callback` (the source hardcodes provider
`"google"` here) and on a returned profile call `login_user`; an exception
is caught and shown as an error. -/
def main_oauth_callback (query_code query_state stored_state : Option String)
    (google_cb microsoft_cb github_cb : String → ExchangeResult)
    (users : UsersTable) (sessions : SessionsTable) (token : String) (now : Nat) :
    CallbackOutcome :=
  match query_code, query_state with
  | some code, some state =>
      match handle_oauth_callback stored_state "google" code state
          google_cb microsoft_cb github_cb with
      | some user_info =>
          match login_user users sessions user_info token now with
          | Except.ok (users', sessions', session_token) =>
              CallbackOutcome.loginSuccess users' sessions' session_token
          | Except.error _ => CallbackOutcome.errorShown
      | none => CallbackOutcome.oauthFailed
  | _, _ => CallbackOutcome.notCallback

/-- Substring relation on strings, used to state what the built URLs carry. -/
abbrev strContains (s pat : String) : Prop := pat.data <:+: s.data

def c1Profile : Profile :=
  { email := "ada@example.com", name := "Ada", avatar_url := none,
    oauth_provider := "google", oauth_id := "gid-1" }

def c1GoogleCb : String → ExchangeResult := fun _ => ExchangeResult.ok c1Profile

def c1OtherCb : String → ExchangeResult := fun _ => ExchangeResult.raised "unused"

def c2Comment : Comment :=
  { id := 1, user_id := 1, document_id := 1, content := "original wording",
    element_id := none, created_at := 10, updated_at := none, is_resolved := false }

def c3User : User :=
  { id := 1, email := "a@b.c", name := "A", avatar_url := none,
    oauth_provider := "google", oauth_id := "g1", is_active := true,
    created_at := 0, last_login := none }

def c3Session : SessionRow :=
  { id := 1, session_token := "tok", user_id := 1, expires_at := 100,
    created_at := 0, is_active := true }

/-- The fresh row `get_or_create_user` inserts (crud.py lines 19-26). -/
def freshUser (t : UsersTable) (email name provider oid : String)
    (av : Option String) (now : Nat) : User :=
  { id := t.nextId, email := email, name := name, avatar_url := av,
    oauth_provider := provider, oauth_id := oid, is_active := true,
    created_at := now, last_login := none }

/-- The in-place update `get_or_create_user` performs on an existing row
(crud.py lines 32-34). -/
def updatedUser (u0 : User) (name : String) (av : Option String) (now : Nat) : User :=
  { u0 with name := name, avatar_url := av, last_login := some now }

def c4Table : UsersTable := { rows := [], nextId := 1 }

def c5Comment : Comment :=
  { id := 1, user_id := 1, document_id := 1, content := "needs review",
    element_id := none, created_at := 10, updated_at := none, is_resolved := false }

def c6CommentA : Comment :=
  { id := 1, user_id := 1, document_id := 1, content := "by A",
    element_id := none, created_at := 5, updated_at := none, is_resolved := false }

def c6CommentB : Comment :=
  { id := 2, user_id := 2, document_id := 1, content := "by B",
    element_id := none, created_at := 6, updated_at := none, is_resolved := false }

def c7GithubUser : GithubUser :=
  { email := none, name := some "Ada", login := "ada", avatar_url := none, id := 7 }

/-- Global uniqueness of emails across the rows of the users table — the
UNIQUE constraint of models.py line 17. -/
def EmailsUnique (rows : List User) : Prop :=
  rows.Pairwise (fun a b => a.email ≠ b.email)

def c9User : User :=
  { id := 1, email := "a@b.c", name := "A", avatar_url := none,
    oauth_provider := "google", oauth_id := "g1", is_active := true,
    created_at := 0, last_login := none }

def c9Table : UsersTable := { rows := [c9User], nextId := 2 }

def c10User : User :=
  { id := 3, email := "c@d.e", name := "Old", avatar_url := some "old-pic",
    oauth_provider := "github", oauth_id := "gh3", is_active := true,
    created_at := 1, last_login := some 2 }

def c8Cfg : OAuthConfig :=
  { google_client_id := none, google_client_secret := none,
    microsoft_client_id := none, microsoft_client_secret := none,
    microsoft_tenant_id := "common",
    github_client_id := some "ghid", github_client_secret := some "ghsec",
    redirect_uri := "http://localhost:8500" }

def c8WCfg : OAuthConfig :=
  { google_client_id := some "gid", google_client_secret := some "gsec",
    microsoft_client_id := none, microsoft_client_secret := none,
    microsoft_tenant_id := "common",
    github_client_id := none, github_client_secret := none,
    redirect_uri := "http://localhost:8500" }

set_option maxRecDepth 10000

/-- A pattern contained in `t` is contained in `s ++ t`. -/
theorem strContains_appendL (s : String) {t pat : String} (h : strContains t pat) :
    strContains (s ++ t) pat := by
  obtain ⟨u, v, huv⟩ := h
  exact ⟨s.data ++ u, v, by simp [List.append_assoc, huv]⟩

/-- A pattern contained in `s` is contained in `s ++ t`. -/
theorem strContains_appendR (t : String) {s pat : String} (h : strContains s pat) :
    strContains (s ++ t) pat := by
  obtain ⟨u, v, huv⟩ := h
  exact ⟨u, v ++ t.data, by simp [← List.append_assoc, huv]⟩

/-- Every parameter pair of an urlencoded list appears verbatim (key, `=`,
quoted value) in the output. -/
theorem urlencode_contains :
    ∀ {params : List (String × String)} {k v : String}, (k, v) ∈ params →
      strContains (urlencode params) (k ++ "=" ++ quotePlus v)
  | [], _, _, h => absurd h (List.not_mem_nil _)
  | [q], k, v, h => by
      have hq : (k, v) = q := by simpa using h
      subst hq
      exact ⟨[], [], by simp [urlencode]⟩
  | q :: q' :: rest, k, v, h => by
      rcases List.mem_cons.mp h with hq | hmem
      · subst hq
        refine ⟨[], ("&" ++ urlencode (q' :: rest)).data, ?_⟩
        simp [urlencode, List.append_assoc]
      · have ih := urlencode_contains hmem
        show strContains (q.1 ++ "=" ++ quotePlus q.2 ++ "&" ++ urlencode (q' :: rest))
          (k ++ "=" ++ quotePlus v)
        exact strContains_appendL (q.1 ++ "=" ++ quotePlus q.2 ++ "&") ih

/-- `find?` finds a designated member when it is the only one satisfying the
predicate. -/
theorem find?_eq_some_of_unique {α : Type} {p : α → Bool} {a : α} :
    ∀ {l : List α}, a ∈ l → p a = true → (∀ b ∈ l, p b = true → b = a) →
      l.find? p = some a
  | [], ha, _, _ => absurd ha (List.not_mem_nil _)
  | x :: xs, ha, hpa, huniq => by
      by_cases hx : p x = true
      · have hxa : x = a := huniq x (List.mem_cons_self x xs) hx
        subst hxa
        exact List.find?_cons_of_pos _ hx
      · rw [List.find?_cons_of_neg _ hx]
        rcases List.mem_cons.mp ha with h | h
        · exact absurd (h ▸ hpa) hx
        · exact find?_eq_some_of_unique h hpa
            (fun b hb hpb => huniq b (List.mem_cons_of_mem _ hb) hpb)

/-- C1: the spec requires the callback handler to compare the presented state
with the issued one and abort on mismatch with no profile, no user upsert and
no session.  The source skips the comparison (oauth.py lines 115-119 are
commented out), so with issued state "issued-state" and presented state
"evil-state" the handler still returns the profile, and app.py's callback
branch still upserts the user and creates a session. -/
theorem c1_state_mismatch_not_aborted :
    handle_oauth_callback (some "issued-state") "google" "code1" "evil-state"
        c1GoogleCb c1OtherCb c1OtherCb = some c1Profile
    ∧ main_oauth_callback (some "code1") (some "evil-state") (some "issued-state")
        c1GoogleCb c1OtherCb c1OtherCb ⟨[], 1⟩ ⟨[], 1⟩ "tok1" 1000
      = CallbackOutcome.loginSuccess
          ⟨[{ id := 1, email := "ada@example.com", name := "Ada", avatar_url := none,
              oauth_provider := "google", oauth_id := "gid-1", is_active := true,
              created_at := 1000, last_login := none }], 2⟩
          ⟨[{ id := 1, session_token := "tok1", user_id := 1, expires_at := 87400,
              created_at := 1000, is_active := true }], 2⟩ "tok1" :=
  ⟨rfl, rfl⟩

/-- C2 counterexample: acting user 2 is not the owner (user 1) of comment 1,
yet the store-level edit is not rejected: `update_comment` takes no acting
user at all, succeeds, and changes the comment. -/
theorem c2_counterexample :
    2 ≠ c2Comment.user_id
    ∧ update_comment [c2Comment] 1 "edited by someone else" 20
        = (some { c2Comment with content := "edited by someone else", updated_at := some 20 },
           [{ c2Comment with content := "edited by someone else", updated_at := some 20 }]) :=
  ⟨by decide, rfl⟩

/-- C2 amended: the store-level `update_comment` performs no ownership check:
whenever a comment with the given id exists, the edit succeeds for any acting
user, the content is replaced and `updated_at` is set to the current time;
the owner-only rule lives solely in the UI, which shows the edit action
exactly when the current user's id equals the comment's `user_id`. -/
theorem c2_update_comment_no_owner_check (comments : List Comment) (c : Comment)
    (acting_user : Nat) (content : String) (now : Nat)
    (hfind : comments.find? (fun v => v.id == c.id) = some c) :
    (update_comment comments c.id content now).1
        = some { c with content := content, updated_at := some now }
    ∧ (update_comment comments c.id content now).2
        = comments.map (fun v =>
            if v.id == c.id then { c with content := content, updated_at := some now } else v)
    ∧ (comment_actions_visible acting_user c = true ↔ acting_user = c.user_id) := by
  refine ⟨?_, ?_, ?_⟩
  · simp [update_comment, hfind]
  · simp [update_comment, hfind]
  · simp [comment_actions_visible]

/-- C2 witness: the owner's own edit at a concrete input. -/
theorem c2_witness :
    (update_comment [c2Comment] 1 "fixed" 30).1
      = some { c2Comment with content := "fixed", updated_at := some 30 } :=
  (c2_update_comment_no_owner_check [c2Comment] c2Comment 1 "fixed" 30 (by decide)).1

/-- C3: `get_user_by_session` returns a user iff a session row exists with
exactly that token, `is_active = true` and `expires_at` strictly beyond the
current time, and the user is the row's owner; in every other situation —
unknown token, inactive session, expired session — the result is `none`, the
same observable answer in all three cases. -/
theorem c3_get_user_by_session_iff (users : List User) (sessions : List SessionRow)
    (session_token : String) (now : Nat) (u : User)
    (htok : sessions.Pairwise (fun a b => a.session_token ≠ b.session_token))
    (hid : users.Pairwise (fun a b => a.id ≠ b.id)) :
    get_user_by_session users sessions session_token now = some u ↔
      ∃ s, s ∈ sessions ∧ s.session_token = session_token ∧ s.is_active = true
        ∧ now < s.expires_at ∧ u ∈ users ∧ u.id = s.user_id := by
  unfold get_user_by_session
  constructor
  · intro h
    cases hfind : sessions.find? (fun s =>
        s.session_token == session_token && s.is_active && decide (now < s.expires_at)) with
    | none => rw [hfind] at h; cases h
    | some s =>
      rw [hfind] at h
      have hs := List.find?_some hfind
      have hmem := List.mem_of_find?_eq_some hfind
      have hu := List.find?_some h
      have humem := List.mem_of_find?_eq_some h
      simp only [Bool.and_eq_true, beq_iff_eq, decide_eq_true_eq] at hs hu
      exact ⟨s, hmem, hs.1.1, hs.1.2, hs.2, humem, hu⟩
  · rintro ⟨s, hmem, htok', hact, hexp, humem, huid⟩
    have hsym : Symmetric (fun a b : SessionRow => a.session_token ≠ b.session_token) :=
      fun _ _ h he => h he.symm
    have hfind : sessions.find? (fun s =>
        s.session_token == session_token && s.is_active && decide (now < s.expires_at)) = some s := by
      refine find?_eq_some_of_unique hmem (by simp [htok', hact, hexp]) ?_
      intro b hb hpb
      simp only [Bool.and_eq_true, beq_iff_eq, decide_eq_true_eq] at hpb
      by_contra hne
      exact htok.forall hsym hb hmem hne (htok'.symm ▸ hpb.1.1)
    rw [hfind]
    have hsymId : Symmetric (fun a b : User => a.id ≠ b.id) := fun _ _ h he => h he.symm
    refine find?_eq_some_of_unique humem (by simp [huid]) ?_
    intro b hb hpb
    simp only [beq_iff_eq] at hpb
    by_contra hne
    exact hid.forall hsymId hb humem hne (huid ▸ hpb)

/-- C3 witness: a valid session resolves to its owner at a concrete input. -/
theorem c3_witness :
    get_user_by_session [c3User] [c3Session] "tok" 50 = some c3User :=
  (c3_get_user_by_session_iff [c3User] [c3Session] "tok" 50 c3User
      (by simp) (by simp)).mpr
    ⟨c3Session, by simp, rfl, rfl, by decide, by simp, rfl⟩

/-- When no row has the email, the upsert takes the insert branch. -/
theorem get_or_create_user_insert (t : UsersTable) (email name provider oid : String)
    (av : Option String) (now : Nat)
    (hfresh : ∀ u ∈ t.rows, u.email ≠ email) :
    get_or_create_user t email name provider oid av now = Except.ok
      ({ rows := t.rows ++ [freshUser t email name provider oid av now],
         nextId := t.nextId + 1 },
       freshUser t email name provider oid av now) := by
  have hfind : t.rows.find? (fun u => u.email == email && u.oauth_provider == provider)
      = none := by
    rw [List.find?_eq_none]
    intro x hx
    simp [hfresh x hx]
  have hany : t.rows.any (fun u => u.email == email) = false := by
    rw [List.any_eq_false]
    intro x hx
    simp [hfresh x hx]
  simp [get_or_create_user, hfind, hany, freshUser]

/-- When the `(email, provider)` lookup hits a row, the upsert takes the
update branch. -/
theorem get_or_create_user_update (t : UsersTable) (email name provider oid : String)
    (av : Option String) (now : Nat) (u0 : User)
    (hfind : t.rows.find? (fun u => u.email == email && u.oauth_provider == provider)
      = some u0) :
    get_or_create_user t email name provider oid av now = Except.ok
      ({ rows := t.rows.map (fun v =>
           if v.id == u0.id then updatedUser u0 name av now else v),
         nextId := t.nextId },
       updatedUser u0 name av now) := by
  simp [get_or_create_user, hfind, updatedUser]

/-- C4: calling the upsert twice with the same `(email, provider)` pair on a
table where that email is unseen yields exactly one row with that email: the
first call inserts it, the second finds it and updates `name`, `avatar_url`
and `last_login` in place, with the same `id` and no duplicate row. -/
theorem c4_upsert_twice (t : UsersTable)
    (email name1 name2 provider oid1 oid2 : String)
    (av1 av2 : Option String) (t1 t2 : Nat)
    (hfresh : ∀ u ∈ t.rows, u.email ≠ email)
    (hid : ∀ u ∈ t.rows, u.id ≠ t.nextId) :
    ∃ ta u1 tb u2,
      get_or_create_user t email name1 provider oid1 av1 t1 = Except.ok (ta, u1)
      ∧ get_or_create_user ta email name2 provider oid2 av2 t2 = Except.ok (tb, u2)
      ∧ u2.id = u1.id ∧ u2.name = name2 ∧ u2.avatar_url = av2 ∧ u2.last_login = some t2
      ∧ tb.rows.length = t.rows.length + 1
      ∧ (tb.rows.filter (fun u => u.email == email)).length = 1 := by
  have hfind1 : t.rows.find? (fun u => u.email == email && u.oauth_provider == provider)
      = none := by
    rw [List.find?_eq_none]
    intro x hx
    simp [hfresh x hx]
  have h1 := get_or_create_user_insert t email name1 provider oid1 av1 t1 hfresh
  have hfind2 : (t.rows ++ [freshUser t email name1 provider oid1 av1 t1]).find?
      (fun u => u.email == email && u.oauth_provider == provider)
      = some (freshUser t email name1 provider oid1 av1 t1) := by
    rw [List.find?_append, hfind1]
    simp [freshUser]
  have h2 := get_or_create_user_update
    { rows := t.rows ++ [freshUser t email name1 provider oid1 av1 t1],
      nextId := t.nextId + 1 }
    email name2 provider oid2 av2 t2 (freshUser t email name1 provider oid1 av1 t1) hfind2
  have hmap : (t.rows ++ [freshUser t email name1 provider oid1 av1 t1]).map
      (fun v => if v.id == (freshUser t email name1 provider oid1 av1 t1).id
        then updatedUser (freshUser t email name1 provider oid1 av1 t1) name2 av2 t2 else v)
      = t.rows ++ [updatedUser (freshUser t email name1 provider oid1 av1 t1) name2 av2 t2] := by
    rw [List.map_append]
    congr 1
    · calc t.rows.map (fun v => if v.id == (freshUser t email name1 provider oid1 av1 t1).id
            then updatedUser (freshUser t email name1 provider oid1 av1 t1) name2 av2 t2 else v)
          = t.rows.map id := List.map_congr_left (fun a ha => by simp [freshUser, hid a ha])
        _ = t.rows := List.map_id t.rows
    · simp [freshUser, updatedUser]
  refine ⟨_, _, _, _, h1, h2, rfl, rfl, rfl, rfl, ?_, ?_⟩
  · simp [hmap]
  · rw [hmap, List.filter_append]
    have hnil : t.rows.filter (fun u => u.email == email) = [] := by
      simp only [List.filter_eq_nil_iff]
      intro x hx
      simp [hfresh x hx]
    rw [hnil]
    simp [freshUser, updatedUser]

/-- C4 witness: the double upsert at a concrete input. -/
theorem c4_witness :
    ∃ ta u1 tb u2,
      get_or_create_user c4Table "a@b.c" "Ada" "google" "g1" none 10 = Except.ok (ta, u1)
      ∧ get_or_create_user ta "a@b.c" "Ada L." "google" "g1" (some "pic") 20
          = Except.ok (tb, u2)
      ∧ u2.id = u1.id ∧ u2.name = "Ada L." ∧ u2.avatar_url = some "pic"
      ∧ u2.last_login = some 20
      ∧ tb.rows.length = c4Table.rows.length + 1
      ∧ (tb.rows.filter (fun u => u.email == "a@b.c")).length = 1 :=
  c4_upsert_twice c4Table "a@b.c" "Ada" "Ada L." "google" "g1" "g1" none (some "pic") 10 20
    (by simp [c4Table]) (by simp [c4Table])

/-- C5 counterexample: user 2 is authenticated and is not the owner of
comment 1, yet the UI renders the resolve button only inside the
owner-gated actions block, so user 2 is offered no resolve action — even
though the store-level `resolve_comment` itself would accept the call. -/
theorem c5_counterexample :
    2 ≠ c5Comment.user_id
    ∧ resolve_button_shown 2 c5Comment = false
    ∧ (resolve_comment [c5Comment] 1).1 = true :=
  ⟨by decide, by decide, by decide⟩

/-- C5 amended: the store-level `resolve_comment` is owner-independent — it
takes no acting user and succeeds for any existing comment id — and an
unauthenticated actor is turned away before any store access; but the UI
offers the resolve action only to the comment's owner (while unresolved), so
a non-owner cannot reach the store-level resolve through the UI. -/
theorem c5_resolve_owner_gated_in_ui (comments : List Comment) (c : Comment) (uid : Nat)
    (hfind : comments.find? (fun v => v.id == c.id) = some c) :
    (resolve_comment comments c.id).1 = true
    ∧ (resolve_comment comments c.id).2
        = comments.map (fun v => if v.id == c.id then { v with is_resolved := true } else v)
    ∧ render_comment_section_shows_comments none = false
    ∧ (resolve_button_shown uid c = true ↔ uid = c.user_id ∧ c.is_resolved = false) := by
  refine ⟨?_, ?_, rfl, ?_⟩
  · simp [resolve_comment, hfind]
  · simp [resolve_comment, hfind]
  · simp [resolve_button_shown]

/-- C5 witness: store-level resolve succeeds at a concrete input. -/
theorem c5_witness :
    (resolve_comment [c5Comment] 1).2
      = [{ c5Comment with is_resolved := true }] :=
  (c5_resolve_owner_gated_in_ui [c5Comment] c5Comment 2 (by decide)).2.1

/-- C6: `delete_comment` succeeds exactly for the owner; for a non-owner or
a missing comment it returns the very same answer `(false, unchanged rows)` —
no observable distinction between the two — and on the owner's call it
reports success, removes the row, and keeps every other comment. -/
theorem c6_delete_comment_owner_only (comments : List Comment) (comment_id user_id : Nat)
    (hids : comments.Pairwise (fun a b => a.id ≠ b.id)) :
    ((∀ c ∈ comments, ¬(c.id = comment_id ∧ c.user_id = user_id)) →
        delete_comment comments comment_id user_id = (false, comments))
    ∧ (∀ c ∈ comments, c.id = comment_id → c.user_id = user_id →
        (delete_comment comments comment_id user_id).1 = true
        ∧ c ∉ (delete_comment comments comment_id user_id).2
        ∧ ∀ d ∈ comments, d.id ≠ comment_id →
            d ∈ (delete_comment comments comment_id user_id).2) := by
  constructor
  · intro hnone
    have hfind : comments.find? (fun c => c.id == comment_id && c.user_id == user_id)
        = none := by
      rw [List.find?_eq_none]
      intro x hx
      simp only [Bool.and_eq_true, beq_iff_eq]
      exact fun h => hnone x hx h
    simp [delete_comment, hfind]
  · intro c hc hcid huid
    have hsym : Symmetric (fun a b : Comment => a.id ≠ b.id) := fun _ _ h he => h he.symm
    have hfind : comments.find? (fun v => v.id == comment_id && v.user_id == user_id)
        = some c := by
      refine find?_eq_some_of_unique hc (by simp [hcid, huid]) ?_
      intro b hb hpb
      simp only [Bool.and_eq_true, beq_iff_eq] at hpb
      by_contra hne
      exact hids.forall hsym hb hc hne (by rw [hpb.1, hcid])
    refine ⟨by simp [delete_comment, hfind], ?_, ?_⟩
    · simp [delete_comment, hfind, List.mem_filter]
    · intro d hd hdne
      simp only [delete_comment, hfind, List.mem_filter]
      refine ⟨hd, ?_⟩
      simp only [Bool.not_eq_eq_eq_not, Bool.not_true, beq_eq_false_iff_ne, ne_eq]
      rw [hcid]
      exact hdne

/-- C6 witness: user 2 cannot delete user 1's comment (same answer as for a
missing id), and user 1's own delete removes the row and keeps the other. -/
theorem c6_witness :
    delete_comment [c6CommentA, c6CommentB] 1 2 = (false, [c6CommentA, c6CommentB])
    ∧ (delete_comment [c6CommentA, c6CommentB] 1 1).1 = true
    ∧ c6CommentA ∉ (delete_comment [c6CommentA, c6CommentB] 1 1).2
    ∧ c6CommentB ∈ (delete_comment [c6CommentA, c6CommentB] 1 1).2 :=
  have h := c6_delete_comment_owner_only [c6CommentA, c6CommentB] 1 1
    (by simp [c6CommentA, c6CommentB])
  have h2 := h.2 c6CommentA (by simp) rfl rfl
  ⟨(c6_delete_comment_owner_only [c6CommentA, c6CommentB] 1 2
      (by simp [c6CommentA, c6CommentB])).1 (by decide),
   h2.1, h2.2.1, h2.2.2 c6CommentB (by simp) (by decide)⟩

/-- C7 counterexample: with a github profile lacking a public email and an
email list whose only entry is not marked primary, the exchange does not
fail — it returns the normalized profile, just with no email in it. -/
theorem c7_counterexample :
    handle_github_callback c7GithubUser [{ email := "a@b.c", primary := false }]
      = { email := none, name := "Ada", avatar_url := none,
          oauth_provider := "github", oauth_id := "7" } := rfl

/-- C7 amended: when the github profile lacks a public email, the email-list
entry marked primary is selected; when no entry is marked primary, no email
is resolved and the exchange still returns the normalized profile, with an
absent email, rather than failing. -/
theorem c7_github_email_resolution (user_info : GithubUser)
    (emails : List GithubEmailEntry)
    (hno : user_info.email = none) :
    (∀ e, emails.find? (fun x => x.primary) = some e →
        (handle_github_callback user_info emails).email = some e.email)
    ∧ ((∀ e ∈ emails, e.primary = false) →
        (handle_github_callback user_info emails).email = none
        ∧ (handle_github_callback user_info emails).oauth_provider = "github") := by
  constructor
  · intro e hfind
    simp [handle_github_callback, hno, truthy, hfind]
  · intro hnone
    have hfind : emails.find? (fun x => x.primary) = none := by
      rw [List.find?_eq_none]
      intro x hx
      simp [hnone x hx]
    simp [handle_github_callback, hno, truthy, hfind]

/-- C7 witness: a primary entry is selected at a concrete input. -/
theorem c7_witness :
    (handle_github_callback c7GithubUser
        [{ email := "a@b.c", primary := false }, { email := "p@b.c", primary := true }]).email
      = some "p@b.c" :=
  (c7_github_email_resolution c7GithubUser
      [{ email := "a@b.c", primary := false }, { email := "p@b.c", primary := true }]
      rfl).1 { email := "p@b.c", primary := true } (by decide)

/-- Replacing the row with `u0`'s id by a row carrying the same email leaves
every member's email unchanged, when ids are unique. -/
theorem update_keeps_member_email {rows : List User} {u0 u' : User}
    (hmem : u0 ∈ rows) (hpw : rows.Pairwise (fun a b => a.id ≠ b.id))
    (hemail : u'.email = u0.email) (v : User) (hv : v ∈ rows) :
    (if v.id == u0.id then u' else v).email = v.email := by
  by_cases h : v.id = u0.id
  · have hsym : Symmetric (fun a b : User => a.id ≠ b.id) := fun _ _ h he => h he.symm
    have hvu : v = u0 := by
      by_contra hne
      exact hpw.forall hsym hv hmem hne h
    simp [h, hemail, hvu]
  · simp [h]

/-- C9: with unique emails and ids, the upsert preserves global uniqueness of
`email` on every successful outcome, and an upsert for a known email under a
different provider does not insert a second row — the UNIQUE constraint makes
it fail instead. -/
theorem c9_email_globally_unique (t : UsersTable)
    (email name provider oid : String) (av : Option String) (now : Nat)
    (hem : EmailsUnique t.rows)
    (hpw : t.rows.Pairwise (fun a b => a.id ≠ b.id)) :
    (∀ t' u, get_or_create_user t email name provider oid av now = Except.ok (t', u) →
        EmailsUnique t'.rows)
    ∧ ((∃ u ∈ t.rows, u.email = email ∧ u.oauth_provider ≠ provider) →
        get_or_create_user t email name provider oid av now
          = Except.error DBError.uniqueViolation) := by
  constructor
  · intro t' u hok
    cases hfind : t.rows.find? (fun v => v.email == email && v.oauth_provider == provider) with
    | some u0 =>
      rw [get_or_create_user_update t email name provider oid av now u0 hfind] at hok
      cases hok
      have hmem := List.mem_of_find?_eq_some hfind
      have hemail : (updatedUser u0 name av now).email = u0.email := rfl
      show EmailsUnique (t.rows.map (fun v =>
        if v.id == u0.id then updatedUser u0 name av now else v))
      unfold EmailsUnique
      rw [List.pairwise_map]
      refine hem.imp_of_mem ?_
      intro a b ha hb hab
      rw [update_keeps_member_email hmem hpw hemail a ha,
        update_keeps_member_email hmem hpw hemail b hb]
      exact hab
    | none =>
      unfold get_or_create_user at hok
      rw [hfind] at hok
      by_cases hany : t.rows.any (fun v => v.email == email) = true
      · rw [if_pos hany] at hok
        cases hok
      · rw [if_neg hany] at hok
        cases hok
        show EmailsUnique (t.rows ++ [freshUser t email name provider oid av now])
        unfold EmailsUnique
        rw [List.pairwise_append]
        refine ⟨hem, List.pairwise_singleton _ _, ?_⟩
        intro a ha b hb
        have hane : a.email ≠ email := by
          have := List.any_eq_false.mp (Bool.not_eq_true _ ▸ hany) a ha
          simpa using this
        have hbe : b.email = email := by
          simp only [List.mem_singleton] at hb
          rw [hb]
          rfl
        exact fun he => hane (he.trans hbe)
  · rintro ⟨u, hu, hue, hup⟩
    have hfind : t.rows.find? (fun v => v.email == email && v.oauth_provider == provider)
        = none := by
      rw [List.find?_eq_none]
      intro x hx
      simp only [Bool.and_eq_true, beq_iff_eq, not_and]
      intro hxe
      have hsym : Symmetric (fun a b : User => a.email ≠ b.email) := fun _ _ h he => h he.symm
      have hxu : x = u := by
        by_contra hne
        exact hem.forall hsym hx hu hne (hxe.trans hue.symm)
      rw [hxu]
      exact hup
    have hany : t.rows.any (fun v => v.email == email) = true :=
      List.any_eq_true.mpr ⟨u, hu, by simp [hue]⟩
    unfold get_or_create_user
    rw [hfind, if_pos hany]

/-- C9 witness: upserting a known email under a new provider fails on the
UNIQUE email constraint instead of inserting a second row. -/
theorem c9_witness :
    get_or_create_user c9Table "a@b.c" "A2" "github" "gh1" none 50
      = Except.error DBError.uniqueViolation :=
  (c9_email_globally_unique c9Table "a@b.c" "A2" "github" "gh1" none 50
      (by simp [EmailsUnique, c9Table]) (by simp [c9Table])).2
    ⟨c9User, by simp [c9Table], rfl, by decide⟩

/-- C10: a re-login upsert on an existing `(email, provider)` row changes
only `name`, `avatar_url` and `last_login`; `id`, `email`, `oauth_provider`,
`oauth_id`, `created_at` (and `is_active`) are untouched, rows with other ids
are untouched, and `avatar_url` is overwritten with the supplied value even
when that value is absent. -/
theorem c10_relogin_frame (t : UsersTable) (email name provider oid : String)
    (av : Option String) (now : Nat) (u0 : User)
    (hfind : t.rows.find? (fun u => u.email == email && u.oauth_provider == provider)
      = some u0) :
    ∃ t' u', get_or_create_user t email name provider oid av now = Except.ok (t', u')
      ∧ u'.id = u0.id ∧ u'.email = u0.email ∧ u'.oauth_provider = u0.oauth_provider
      ∧ u'.oauth_id = u0.oauth_id ∧ u'.created_at = u0.created_at
      ∧ u'.is_active = u0.is_active
      ∧ u'.name = name ∧ u'.avatar_url = av ∧ u'.last_login = some now
      ∧ t'.nextId = t.nextId
      ∧ t'.rows = t.rows.map (fun v => if v.id == u0.id then u' else v) :=
  ⟨_, _, get_or_create_user_update t email name provider oid av now u0 hfind,
   rfl, rfl, rfl, rfl, rfl, rfl, rfl, rfl, rfl, rfl, rfl⟩

/-- C10 witness: a re-login without an avatar clears the stored avatar and
leaves the identity fields alone, at a concrete input. -/
theorem c10_witness :
    ∃ t' u', get_or_create_user { rows := [c10User], nextId := 4 }
        "c@d.e" "New" "github" "gh3" none 99 = Except.ok (t', u')
      ∧ u'.id = c10User.id ∧ u'.email = c10User.email
      ∧ u'.oauth_provider = c10User.oauth_provider
      ∧ u'.oauth_id = c10User.oauth_id ∧ u'.created_at = c10User.created_at
      ∧ u'.is_active = c10User.is_active
      ∧ u'.name = "New" ∧ u'.avatar_url = none ∧ u'.last_login = some 99
      ∧ t'.nextId = ({ rows := [c10User], nextId := 4 } : UsersTable).nextId
      ∧ t'.rows = ({ rows := [c10User], nextId := 4 } : UsersTable).rows.map
          (fun v => if v.id == c10User.id then u' else v) :=
  c10_relogin_frame { rows := [c10User], nextId := 4 } "c@d.e" "New" "github" "gh3"
    none 99 c10User (by decide)

/-- C8 counterexample: for the configured github provider the generated URL
echoes the state but carries no `response_type=code` parameter — the github
parameter dict in the source has no `response_type` entry. -/
theorem c8_counterexample :
    (get_oauth_login_url c8Cfg "github" "s1").isSome = true
    ∧ strContains ((get_oauth_login_url c8Cfg "github" "s1").getD "") "state=s1"
    ∧ strContains ((get_oauth_login_url c8Cfg "github" "s1").getD "") "client_id=ghid"
    ∧ ¬ strContains ((get_oauth_login_url c8Cfg "github" "s1").getD "") "response_type=code" :=
  ⟨by decide, by decide, by decide, by decide⟩

/-- The google branch of `get_oauth_login_url`, as an equation. -/
theorem get_oauth_login_url_google (cfg : OAuthConfig) (state : String)
    (hconf : is_configured cfg "google" = true) :
    get_oauth_login_url cfg "google" state
      = some ("https://accounts.google.com/o/oauth2/v2/auth?" ++ urlencode
        [("client_id", cfg.google_client_id.getD ""),
         ("redirect_uri", cfg.redirect_uri),
         ("scope", "openid email profile"),
         ("response_type", "code"),
         ("state", state),
         ("access_type", "offline"),
         ("prompt", "select_account"),
         ("include_granted_scopes", "true")]) := by
  unfold get_oauth_login_url
  rw [hconf]
  simp

/-- The microsoft branch of `get_oauth_login_url`, as an equation. -/
theorem get_oauth_login_url_microsoft (cfg : OAuthConfig) (state : String)
    (hconf : is_configured cfg "microsoft" = true) :
    get_oauth_login_url cfg "microsoft" state
      = some ("https://login.microsoftonline.com/" ++ cfg.microsoft_tenant_id
        ++ "/oauth2/v2.0/authorize?" ++ urlencode
        [("client_id", cfg.microsoft_client_id.getD ""),
         ("redirect_uri", cfg.redirect_uri),
         ("scope", "openid email profile"),
         ("response_type", "code"),
         ("state", state),
         ("prompt", "select_account")]) := by
  unfold get_oauth_login_url
  rw [hconf]
  simp

/-- The github branch of `get_oauth_login_url`, as an equation. -/
theorem get_oauth_login_url_github (cfg : OAuthConfig) (state : String)
    (hconf : is_configured cfg "github" = true) :
    get_oauth_login_url cfg "github" state
      = some ("https://github.com/login/oauth/authorize?" ++ urlencode
        [("client_id", cfg.github_client_id.getD ""),
         ("redirect_uri", cfg.redirect_uri),
         ("scope", "user:email"),
         ("state", state)]) := by
  unfold get_oauth_login_url
  rw [hconf]
  simp

/-- C8 amended: building the URL yields nothing for an unconfigured provider;
for a configured provider the URL carries the client id, the redirect URI,
the provider's scopes and the state (generated inside the function and
modelled here as the `state` argument); `response_type=code` is present for
google and microsoft but not part of the github parameters. -/
theorem c8_login_url_contents (cfg : OAuthConfig) (provider state : String) :
    (is_configured cfg provider = false → get_oauth_login_url cfg provider state = none)
    ∧ (∀ cid, cfg.google_client_id = some cid → is_configured cfg "google" = true →
        ∀ url, get_oauth_login_url cfg "google" state = some url →
          strContains url ("client_id=" ++ quotePlus cid)
          ∧ strContains url ("redirect_uri=" ++ quotePlus cfg.redirect_uri)
          ∧ strContains url ("scope=" ++ quotePlus "openid email profile")
          ∧ strContains url ("response_type=" ++ quotePlus "code")
          ∧ strContains url ("state=" ++ quotePlus state))
    ∧ (∀ cid, cfg.microsoft_client_id = some cid → is_configured cfg "microsoft" = true →
        ∀ url, get_oauth_login_url cfg "microsoft" state = some url →
          strContains url ("client_id=" ++ quotePlus cid)
          ∧ strContains url ("redirect_uri=" ++ quotePlus cfg.redirect_uri)
          ∧ strContains url ("scope=" ++ quotePlus "openid email profile")
          ∧ strContains url ("response_type=" ++ quotePlus "code")
          ∧ strContains url ("state=" ++ quotePlus state))
    ∧ (∀ cid, cfg.github_client_id = some cid → is_configured cfg "github" = true →
        ∀ url, get_oauth_login_url cfg "github" state = some url →
          strContains url ("client_id=" ++ quotePlus cid)
          ∧ strContains url ("redirect_uri=" ++ quotePlus cfg.redirect_uri)
          ∧ strContains url ("scope=" ++ quotePlus "user:email")
          ∧ strContains url ("state=" ++ quotePlus state)) := by
  refine ⟨?_, ?_, ?_, ?_⟩
  · intro hconf
    unfold get_oauth_login_url
    rw [hconf]
    simp
  · intro cid hcid hconf url hurl
    rw [get_oauth_login_url_google cfg state hconf, Option.some_inj] at hurl
    subst hurl
    rw [hcid]
    simp only [Option.getD_some]
    refine ⟨?_, ?_, ?_, ?_, ?_⟩
    · rw [show ("client_id=" : String) = "client_id" ++ "=" from rfl]
      exact strContains_appendL _ (urlencode_contains (by simp))
    · rw [show ("redirect_uri=" : String) = "redirect_uri" ++ "=" from rfl]
      exact strContains_appendL _ (urlencode_contains (by simp))
    · rw [show ("scope=" : String) = "scope" ++ "=" from rfl]
      exact strContains_appendL _ (urlencode_contains (by simp))
    · rw [show ("response_type=" : String) = "response_type" ++ "=" from rfl]
      exact strContains_appendL _ (urlencode_contains (by simp))
    · rw [show ("state=" : String) = "state" ++ "=" from rfl]
      exact strContains_appendL _ (urlencode_contains (by simp))
  · intro cid hcid hconf url hurl
    rw [get_oauth_login_url_microsoft cfg state hconf, Option.some_inj] at hurl
    subst hurl
    rw [hcid]
    simp only [Option.getD_some]
    refine ⟨?_, ?_, ?_, ?_, ?_⟩
    · rw [show ("client_id=" : String) = "client_id" ++ "=" from rfl]
      exact strContains_appendL _ (urlencode_contains (by simp))
    · rw [show ("redirect_uri=" : String) = "redirect_uri" ++ "=" from rfl]
      exact strContains_appendL _ (urlencode_contains (by simp))
    · rw [show ("scope=" : String) = "scope" ++ "=" from rfl]
      exact strContains_appendL _ (urlencode_contains (by simp))
    · rw [show ("response_type=" : String) = "response_type" ++ "=" from rfl]
      exact strContains_appendL _ (urlencode_contains (by simp))
    · rw [show ("state=" : String) = "state" ++ "=" from rfl]
      exact strContains_appendL _ (urlencode_contains (by simp))
  · intro cid hcid hconf url hurl
    rw [get_oauth_login_url_github cfg state hconf, Option.some_inj] at hurl
    subst hurl
    rw [hcid]
    simp only [Option.getD_some]
    refine ⟨?_, ?_, ?_, ?_⟩
    · rw [show ("client_id=" : String) = "client_id" ++ "=" from rfl]
      exact strContains_appendL _ (urlencode_contains (by simp))
    · rw [show ("redirect_uri=" : String) = "redirect_uri" ++ "=" from rfl]
      exact strContains_appendL _ (urlencode_contains (by simp))
    · rw [show ("scope=" : String) = "scope" ++ "=" from rfl]
      exact strContains_appendL _ (urlencode_contains (by simp))
    · rw [show ("state=" : String) = "state" ++ "=" from rfl]
      exact strContains_appendL _ (urlencode_contains (by simp))

/-- C8 witness: with google configured the URL carries `response_type=code`
and the echoed state, and the unconfigured microsoft provider yields no URL. -/
theorem c8_witness :
    strContains ((get_oauth_login_url c8WCfg "google" "s1").getD "")
        ("response_type=" ++ quotePlus "code")
    ∧ strContains ((get_oauth_login_url c8WCfg "google" "s1").getD "")
        ("state=" ++ quotePlus "s1")
    ∧ get_oauth_login_url c8WCfg "microsoft" "s1" = none :=
  have h := (c8_login_url_contents c8WCfg "google" "s1").2.1 "gid" rfl (by decide)
    ((get_oauth_login_url c8WCfg "google" "s1").getD "") (by decide)
  ⟨h.2.2.2.1, h.2.2.2.2,
   (c8_login_url_contents c8WCfg "microsoft" "s1").1 (by decide)⟩

end DocBrowser

